import Mathlib

set_option autoImplicit false

/-!
# Model of the isitchristmas.com screenshot service

A shallow embedding of the repository's core: the geo resolver
(`maxmind.get_country_from_ip`, duplicated verbatim in `app.get_country_from_ip`),
the capture pipeline (`screenshot.capture_isitchristmas_screenshot`, duplicated
in `app.capture_isitchristmas_screenshot`) with its route-interception handler
`handle_route`, and the `GET /screenshot` endpoint `app.get_screenshot`.

Strings are modelled as Lean `String`s; the string-manipulation primitives the
source uses (`str.split`, `str.strip`, `str.upper`, `ipaddress.ip_address`,
`re.sub` with the fixed country pattern) are given executable structural
definitions on `List Char` so that concrete inputs evaluate by `decide`/`rfl`.
-/

/-! ## Character and string helpers -/

/-- The double-quote character. -/
def dquote : Char := Char.ofNat 34

/-- The single-quote character. -/
def squote : Char := Char.ofNat 39

/-- The backslash character. -/
def bslash : Char := Char.ofNat 92

/-- Split a character list at every occurrence of `sep`, the way Python's
`str.split(sep)` does for a one-character separator (an empty input gives
one empty field, `n` separators give `n + 1` fields). -/
def splitOnChar (sep : Char) : List Char → List (List Char)
  | [] => [[]]
  | c :: rest =>
    let r := splitOnChar sep rest
    if c = sep then [] :: r
    else
      match r with
      | h :: t => (c :: h) :: t
      | [] => [[c]]

/-- Python's `str.strip()` on a character list (whitespace from both ends). -/
def trimChars (l : List Char) : List Char :=
  ((l.dropWhile Char.isWhitespace).reverse.dropWhile Char.isWhitespace).reverse

/-- Python's `str.upper()` restricted to the ASCII range (the only inputs the
service feeds it are ASCII query-parameter values). -/
def str_upper (s : String) : String := String.mk (s.data.map Char.toUpper)

/-- Decimal value of a digit list (all callers check `Char.isDigit` first). -/
def decimalVal (cs : List Char) : Nat :=
  cs.foldl (fun a c => a * 10 + (c.toNat - 48)) 0

/-- Is `c` an ASCII hexadecimal digit? -/
def isHexChar (c : Char) : Bool :=
  c.isDigit || ('a' ≤ c && c ≤ 'f') || ('A' ≤ c && c ≤ 'F')

/-- Value of one hexadecimal digit. -/
def hexVal (c : Char) : Nat :=
  if c.isDigit then c.toNat - 48
  else if 'a' ≤ c && c ≤ 'f' then c.toNat - 87
  else c.toNat - 55

/-- Hexadecimal value of a hex-digit list. -/
def hexNat (cs : List Char) : Nat :=
  cs.foldl (fun a c => a * 16 + hexVal c) 0

/-- Lowercase hexadecimal rendering of `n` (Python's `'%x' % n`). -/
def toHexChars (n : Nat) : List Char := Nat.toDigits 16 n

/-! ## `ipaddress.ip_address` — parsing

Model of the CPython `ipaddress` module's address parsing as used by
`get_country_from_ip` (`src/maxmind.py` line 54): `IPv4Address` is tried
first, then `IPv6Address`; a failure of both is a `ValueError`. -/

/-- One dotted-decimal octet (`ipaddress._parse_octet`): non-empty, ASCII
digits only, at most three of them, no leading zero, value at most 255. -/
def parse_octet (cs : List Char) : Option Nat :=
  if cs.isEmpty then none
  else if !(cs.all Char.isDigit) then none
  else if cs.length > 3 then none
  else if cs.length > 1 && cs.headD dquote = '0' then none
  else
    let n := decimalVal cs
    if n ≤ 255 then some n else none

/-- `IPv4Address` parsing: exactly four octets separated by dots; result is
the 32-bit integer value of the address. -/
def parse_ipv4 (cs : List Char) : Option Nat :=
  let parts := splitOnChar '.' cs
  if parts.length ≠ 4 then none
  else
    match parts.mapM parse_octet with
    | some octs => some (octs.foldl (fun a o => a * 256 + o) 0)
    | none => none

/-- One IPv6 hextet (`ipaddress._parse_hextet`): non-empty, ASCII hex digits
only, at most four of them. -/
def parse_hextet (cs : List Char) : Option Nat :=
  if cs.isEmpty then none
  else if cs.length > 4 then none
  else if !(cs.all isHexChar) then none
  else some (hexNat cs)

/-- Fold a list of hextet values into the high bits of a 128-bit integer. -/
def foldHextets (init : Nat) (vals : List Nat) : Nat :=
  vals.foldl (fun a v => a * 65536 + v) init

/-- `IPv6Address._ip_int_from_string` on the address part (scope id already
stripped): split on `:`; at least three fields; a trailing dotted-quad is
expanded into two hextets; at most one `::` (an interior empty field), with a
lone leading/trailing `:` only legal as half of a `::`; without `::` exactly
eight hextets are required. Returns the 128-bit integer value. -/
def parse_ipv6_value (cs : List Char) : Option Nat :=
  let parts0 := splitOnChar ':' cs
  if parts0.length < 3 then none
  else
    let expanded : Option (List (List Char)) :=
      match parts0.getLast? with
      | some last =>
        if last.contains '.' then
          match parse_ipv4 last with
          | some v4 => some (parts0.dropLast ++ [toHexChars (v4 / 65536), toHexChars (v4 % 65536)])
          | none => none
        else some parts0
      | none => some parts0
    match expanded with
    | none => none
    | some parts =>
      if parts.length > 9 then none
      else
        let n := parts.length
        let interiorEmpties :=
          (List.range n).filter (fun i => decide (0 < i) && decide (i + 1 < n) && (parts.getD i [dquote]).isEmpty)
        match interiorEmpties with
        | [] =>
          if n ≠ 8 then none
          else if (parts.headD []).isEmpty then none
          else if (parts.getLastD []).isEmpty then none
          else
            match parts.mapM parse_hextet with
            | some vals => some (foldHextets 0 vals)
            | none => none
        | [i] =>
          let headEmpty := (parts.headD [dquote]).isEmpty
          let lastEmpty := (parts.getLastD [dquote]).isEmpty
          let hi := if headEmpty then i - 1 else i
          let lo := if lastEmpty then n - i - 2 else n - i - 1
          if headEmpty && hi ≠ 0 then none
          else if lastEmpty && lo ≠ 0 then none
          else if hi + lo ≥ 8 then none
          else
            match (parts.take hi).mapM parse_hextet, (parts.drop (n - lo)).mapM parse_hextet with
            | some hiVals, some loVals =>
              some (foldHextets (foldHextets 0 hiVals * 65536 ^ (8 - (hi + lo))) loVals)
            | _, _ => none
        | _ => none

/-- A parsed address: either an `IPv4Address` (32-bit value) or an
`IPv6Address` (128-bit value, optional scope id). -/
inductive IPAddr where
  | v4 (value : Nat)
  | v6 (value : Nat) (scope : Option String)
  deriving DecidableEq, Repr

/-- `IPv6Address` construction: an optional `%scope` suffix (the scope id must
be non-empty and contain no further `%`), then the address value. -/
def parse_ipv6 (cs : List Char) : Option IPAddr :=
  match splitOnChar '%' cs with
  | [a] => (parse_ipv6_value a).map (fun v => IPAddr.v6 v none)
  | [a, sc] =>
    if sc.isEmpty then none
    else (parse_ipv6_value a).map (fun v => IPAddr.v6 v (some (String.mk sc)))
  | _ => none

/-- `ipaddress.ip_address(s)`: try IPv4, then IPv6; `none` models the
`ValueError` raised when neither form parses. -/
def ip_address (s : String) : Option IPAddr :=
  match parse_ipv4 s.data with
  | some v => some (IPAddr.v4 v)
  | none => parse_ipv6 s.data

/-! ## Address classification (`is_private` / `is_loopback`) -/

/-- Is the 32-bit value `v` inside the IPv4 network `net/len`? -/
def inNet4 (v net len : Nat) : Bool := v / 2 ^ (32 - len) = net / 2 ^ (32 - len)

/-- Is the 128-bit value `v` inside the IPv6 network `net/len`? -/
def inNet6 (v net len : Nat) : Bool := v / 2 ^ (128 - len) = net / 2 ^ (128 - len)

/-- The `IPv4Address._constants._private_networks` list. -/
def v4_private_nets : List (Nat × Nat) :=
  [(0x00000000, 8), (0x0A000000, 8), (0x7F000000, 8), (0xA9FE0000, 16),
   (0xAC100000, 12), (0xC0000000, 29), (0xC00000AA, 31), (0xC0000200, 24),
   (0xC0A80000, 16), (0xC6120000, 15), (0xC6336400, 24), (0xCB007100, 24),
   (0xF0000000, 4), (0xFFFFFFFF, 32)]

/-- The `IPv6Address._constants._private_networks` list. -/
def v6_private_nets : List (Nat × Nat) :=
  [(1, 128), (0, 128), (0xFFFF * 2 ^ 32, 96), (0x100 * 2 ^ 112, 64),
   (0x2001 * 2 ^ 112, 23), ((0x2001 * 65536 + 0x2) * 2 ^ 96, 48),
   ((0x2001 * 65536 + 0xDB8) * 2 ^ 96, 32), ((0x2001 * 65536 + 0x10) * 2 ^ 96, 28),
   (0xFC00 * 2 ^ 112, 7), (0xFE80 * 2 ^ 112, 10)]

/-- `ip_obj.is_private`. -/
def IPAddr.is_private : IPAddr → Bool
  | .v4 v => v4_private_nets.any (fun p => inNet4 v p.1 p.2)
  | .v6 v _ => v6_private_nets.any (fun p => inNet6 v p.1 p.2)

/-- `ip_obj.is_loopback` (IPv4: `127.0.0.0/8`; IPv6: `::1`). -/
def IPAddr.is_loopback : IPAddr → Bool
  | .v4 v => inNet4 v 0x7F000000 8
  | .v6 v _ => v = 1

/-! ## The geo resolver (`maxmind.get_country_from_ip`) -/

/-- Outcome of `geoip_reader.country(ip)`: a record whose `country.iso_code`
is an optional string, an `AddressNotFoundError`, or any other exception. -/
inductive LookupResult where
  | found (iso_code : Option String)
  | addressNotFound
  | otherError (msg : String)
  deriving DecidableEq

/-- The loaded MaxMind database handle (`geoip2.database.Reader`), abstracted
to the one method the resolver calls. -/
structure Reader where
  country : String → LookupResult

/-- `get_country_from_ip` (`src/maxmind.py` lines 42–72, identical copy in
`src/app.py` lines 47–77): parse the input; private/loopback or unparseable
inputs and every lookup failure fall back to `"GB"`; a non-empty looked-up
`iso_code` is returned as-is. The `geoip_reader` module global is passed
explicitly; `none` models the "no database loaded" state. Exceptions inside
the Python function are all caught (the `ValueError` branch and the two
`except` arms), so the model is a total function. -/
def get_country_from_ip (geoip_reader : Option Reader) (ip_addr : String) : String :=
  match ip_address ip_addr with
  | some ip_obj =>
    if ip_obj.is_private || ip_obj.is_loopback then "GB"
    else
      match geoip_reader with
      | some reader =>
        match reader.country ip_addr with
        | .found (some country_code) => if country_code ≠ "" then country_code else "GB"
        | .found none => "GB"
        | .addressNotFound => "GB"
        | .otherError _ => "GB"
      | none => "GB"
  | none => "GB"

/-- Is `s` a string of exactly two ASCII uppercase letters? -/
def twoUpper (s : String) : Bool :=
  s.data.length = 2 && s.data.all Char.isUpper

-- sanity checks (concrete evaluations of the parser)
example : ip_address "192.168.0.10" = some (IPAddr.v4 3232235530) := by decide
example : ip_address "10.0.0.1" = some (IPAddr.v4 167772161) := by decide
example : ip_address "127.0.0.1" = some (IPAddr.v4 2130706433) := by decide
example : ip_address "8.8.8.8" = some (IPAddr.v4 134744072) := by decide
example : ip_address "" = none := by decide
example : ip_address "not_an_ip" = none := by decide
example : ip_address "999.999.999.999" = none := by decide
example : ip_address "::1" = some (IPAddr.v6 1 none) := by decide
example : (IPAddr.v4 134744072).is_private = false := by decide
example : (IPAddr.v4 3232235530).is_private = true := by decide
example : (IPAddr.v4 2130706433).is_loopback = true := by decide

/-! ## Claims about the geo resolver -/

/-- The dataset lookup for `ip` can yield the country code `code`: a reader is
loaded and its `country` call returns a record whose `iso_code` is `code`. -/
def yields (geoip_reader : Option Reader) (ip code : String) : Prop :=
  ∃ r, geoip_reader = some r ∧ r.country ip = LookupResult.found (some code)

/-- Claim C3: for every input string and every dataset state, the resolver
returns normally (it is a total function of the model, all Python exceptions
being caught inside it) and, assuming every code the dataset lookup can yield
is a two-letter uppercase ISO code, the returned value is a string of exactly
two uppercase letters. -/
theorem C3_resolver_total_two_upper (reader : Option Reader) (ip : String)
    (h : ∀ code, yields reader ip code → twoUpper code = true) :
    twoUpper (get_country_from_ip reader ip) = true := by
  have hGB : twoUpper "GB" = true := by decide
  unfold get_country_from_ip
  cases hp : ip_address ip with
  | none => exact hGB
  | some a =>
    dsimp only
    by_cases hcl : (a.is_private || a.is_loopback) = true
    · rw [if_pos hcl]; exact hGB
    · rw [if_neg hcl]
      cases reader with
      | none => exact hGB
      | some r =>
        dsimp only
        cases hc : r.country ip with
        | found iso =>
          cases iso with
          | none => exact hGB
          | some code =>
            dsimp only
            by_cases hne : code = ""
            · subst hne; simp [hGB]
            · rw [if_pos hne]
              exact h code ⟨r, rfl, hc⟩
        | addressNotFound => exact hGB
        | otherError m => exact hGB

/-- A demonstration reader whose lookup always succeeds with `"US"`. -/
def usReader : Reader := ⟨fun _ => LookupResult.found (some "US")⟩

/-- Witness for C3 at the public address `8.8.8.8` with a loaded reader. -/
theorem C3_witness :
    twoUpper (get_country_from_ip (some usReader) "8.8.8.8") = true :=
  C3_resolver_total_two_upper (some usReader) "8.8.8.8"
    (fun code hc => by
      obtain ⟨r, hr, hc2⟩ := hc
      injection hr with hr'
      subst hr'
      simp only [usReader] at hc2
      injection hc2 with h1
      injection h1 with h2
      subst h2
      decide)

/-- Claim C4: every input that parses as a private-range or loopback-range
address resolves to exactly `"GB"`, for every dataset state — the dataset is
never consulted on this path. -/
theorem C4_private_loopback_fallback (reader : Option Reader) (ip : String)
    (a : IPAddr) (hp : ip_address ip = some a)
    (hcl : (a.is_private || a.is_loopback) = true) :
    get_country_from_ip reader ip = "GB" := by
  unfold get_country_from_ip
  rw [hp]
  simp [hcl]

/-- A demonstration reader whose lookup always succeeds with `"FR"`; used to
show the fallback paths ignore a loaded dataset. -/
def frReader : Reader := ⟨fun _ => LookupResult.found (some "FR")⟩

/-- Witness for C4 at `192.168.0.10`, `10.0.0.1` and `127.0.0.1`, with a
loaded reader that would report `"FR"`. -/
theorem C4_witness :
    get_country_from_ip (some frReader) "192.168.0.10" = "GB" ∧
    get_country_from_ip (some frReader) "10.0.0.1" = "GB" ∧
    get_country_from_ip (some frReader) "127.0.0.1" = "GB" :=
  ⟨C4_private_loopback_fallback (some frReader) "192.168.0.10"
      (IPAddr.v4 3232235530) (by decide) (by decide),
   C4_private_loopback_fallback (some frReader) "10.0.0.1"
      (IPAddr.v4 167772161) (by decide) (by decide),
   C4_private_loopback_fallback (some frReader) "127.0.0.1"
      (IPAddr.v4 2130706433) (by decide) (by decide)⟩

/-- Claim C5: every input that does not parse as a network address resolves to
exactly `"GB"`, for every dataset state — the dataset is never reached. -/
theorem C5_unparseable_fallback (reader : Option Reader) (ip : String)
    (hp : ip_address ip = none) :
    get_country_from_ip reader ip = "GB" := by
  unfold get_country_from_ip
  rw [hp]

/-- Witness for C5 at `""`, `"not_an_ip"` and `"999.999.999.999"`, with a
loaded reader that would report `"FR"`. -/
theorem C5_witness :
    get_country_from_ip (some frReader) "" = "GB" ∧
    get_country_from_ip (some frReader) "not_an_ip" = "GB" ∧
    get_country_from_ip (some frReader) "999.999.999.999" = "GB" :=
  ⟨C5_unparseable_fallback (some frReader) "" (by decide),
   C5_unparseable_fallback (some frReader) "not_an_ip" (by decide),
   C5_unparseable_fallback (some frReader) "999.999.999.999" (by decide)⟩

/-- Claim C6: for a valid public (non-private, non-loopback) address, a lookup
that reports address-not-found, raises any other error, or yields an absent or
empty country identifier resolves to `"GB"`; no lookup error propagates (the
model function is total). -/
theorem C6_lookup_failure_fallback (r : Reader) (ip : String) (a : IPAddr)
    (m : String) (hp : ip_address ip = some a)
    (hcl : (a.is_private || a.is_loopback) = false)
    (hl : r.country ip = LookupResult.addressNotFound ∨
          r.country ip = LookupResult.otherError m ∨
          r.country ip = LookupResult.found none ∨
          r.country ip = LookupResult.found (some "")) :
    get_country_from_ip (some r) ip = "GB" := by
  unfold get_country_from_ip
  rw [hp]
  simp only [hcl, Bool.false_eq_true, if_false]
  rcases hl with h | h | h | h <;> simp [h]

/-- A reader that reports every address as absent from the dataset. -/
def notFoundReader : Reader := ⟨fun _ => LookupResult.addressNotFound⟩

/-- Witness for C6 at `8.8.8.8` with a reader whose lookup misses. -/
theorem C6_witness :
    get_country_from_ip (some notFoundReader) "8.8.8.8" = "GB" :=
  C6_lookup_failure_fallback notFoundReader "8.8.8.8" (IPAddr.v4 134744072) ""
    (by decide) (by decide) (Or.inl rfl)

/-- Claim C7: with no dataset loaded, every input that parses as a valid
non-private, non-loopback address resolves to `"GB"`. -/
theorem C7_no_dataset_fallback (ip : String) (a : IPAddr)
    (hp : ip_address ip = some a)
    (hcl : (a.is_private || a.is_loopback) = false) :
    get_country_from_ip none ip = "GB" := by
  unfold get_country_from_ip
  rw [hp]
  simp [hcl]

/-- Witness for C7 at `8.8.8.8` with no reader loaded. -/
theorem C7_witness : get_country_from_ip none "8.8.8.8" = "GB" :=
  C7_no_dataset_fallback "8.8.8.8" (IPAddr.v4 134744072) (by decide) (by decide)

/-! ## `re.sub` with the fixed country pattern

`handle_route` (`src/screenshot.py` lines 26–45, identical copy in
`src/app.py` lines 94–116) rewrites the document body with `re.sub`, whose
pattern is: the literal `var country = `, one quote of either style (the two
quotes are matched independently), exactly two uppercase ASCII letters, one
quote of either style, then `;`; and whose replacement is the f-string
interpolating `country_code` between double quotes.  Two CPython behaviours
matter and are modelled exactly:

* the pattern is fixed-width and deterministic, so `re.sub` is a left-to-right
  scan replacing each leftmost non-overlapping 19-character match;
* the replacement string is an `sre_parse` *template*: backslash escapes in it
  are processed before substitution (`\n` → newline, `\\` → `\`, `\061`-style
  octal escapes, `\g<0>` → the whole match, numeric group references — all of
  which are invalid here since the pattern has no capture groups — and unknown
  ASCII-letter escapes raise `re.error`); a template with no backslash is used
  literally. -/

/-- One element of a parsed replacement template: a literal character, or a
reference to group 0 (the whole match) via `\g<0>`. -/
inductive TemplItem where
  | lit (c : Char)
  | group0
  deriving DecidableEq

/-- The `re.error` cases `sre_parse.parse_template` can raise for this
pattern (which has no capture groups, so every group reference other than
group 0 is invalid; the distinct "unknown group name" / "bad character in
group name" / "missing <" errors are collapsed into `badGroupName`). -/
inductive TemplateError where
  | badEscapeEnd
  | badEscape (c : Char)
  | invalidGroupRef
  | badGroupName
  | octalOutOfRange
  deriving DecidableEq

/-- Is `c` an ASCII octal digit? -/
def isOctChar (c : Char) : Bool := '0' ≤ c && c ≤ '7'

/-- Octal value of an octal-digit list. -/
def octalVal (cs : List Char) : Nat :=
  cs.foldl (fun a c => a * 8 + (c.toNat - 48)) 0

/-- The template character escapes `sre_parse.ESCAPES` translates. -/
def escChar (c : Char) : Option Char :=
  if c = 'a' then some (Char.ofNat 7)
  else if c = 'b' then some (Char.ofNat 8)
  else if c = 'f' then some (Char.ofNat 12)
  else if c = 'n' then some (Char.ofNat 10)
  else if c = 'r' then some (Char.ofNat 13)
  else if c = 't' then some (Char.ofNat 9)
  else if c = 'v' then some (Char.ofNat 11)
  else none

/-- `sre_parse.parse_template`, fuelled so that the recursion is structural
(each step consumes at least one character and one unit of fuel, so fuel equal
to the input length — what `parse_template` supplies — is always enough; the
fuel-exhausted case is unreachable from `parse_template`). -/
def parse_templateF : Nat → List Char → Except TemplateError (List TemplItem)
  | _, [] => .ok []
  | 0, _ => .ok []
  | fuel + 1, c :: rest =>
    if c = bslash then
      match rest with
      | [] => .error .badEscapeEnd
      | d :: r2 =>
        if d = bslash then
          (parse_templateF fuel r2).map (fun t => .lit bslash :: t)
        else if d = 'g' then
          match r2 with
          | c1 :: r3 =>
            if c1 = '<' then
              let name := r3.takeWhile (fun x => x != '>')
              if name.length = r3.length then .error .badGroupName
              else if name.isEmpty then .error .badGroupName
              else if name.all Char.isDigit then
                if decimalVal name = 0 then
                  (parse_templateF fuel (r3.drop (name.length + 1))).map
                    (fun t => .group0 :: t)
                else .error .invalidGroupRef
              else .error .badGroupName
            else .error .badGroupName
          | [] => .error .badGroupName
        else if d = '0' then
          let ods := (r2.takeWhile isOctChar).take 2
          (parse_templateF fuel (r2.drop ods.length)).map
            (fun t => .lit (Char.ofNat (octalVal ods)) :: t)
        else if d.isDigit then
          match r2 with
          | d2 :: d3 :: r4 =>
            if d2.isDigit then
              if isOctChar d && isOctChar d2 && isOctChar d3 then
                if octalVal [d, d2, d3] > 255 then .error .octalOutOfRange
                else
                  (parse_templateF fuel r4).map
                    (fun t => .lit (Char.ofNat (octalVal [d, d2, d3])) :: t)
              else .error .invalidGroupRef
            else .error .invalidGroupRef
          | _ => .error .invalidGroupRef
        else
          match escChar d with
          | some e => (parse_templateF fuel r2).map (fun t => .lit e :: t)
          | none =>
            if d.isAlpha then .error (.badEscape d)
            else (parse_templateF fuel r2).map (fun t => .lit bslash :: .lit d :: t)
    else
      (parse_templateF fuel rest).map (fun t => .lit c :: t)

/-- Parse a replacement template. -/
def parse_template (l : List Char) : Except TemplateError (List TemplItem) :=
  parse_templateF l.length l

/-- The fixed 14-character literal head of the pattern. -/
def patHead : List Char := "var country = ".data

/-- Does the regex `var country = ["\x27][A-Z]\x7b2\x7d["\x27];` match at the
head of `l`?  A match is always exactly 19 characters: the literal head, a
quote of either style, two uppercase ASCII letters, a quote of either style,
and a semicolon. -/
def matchCountry (l : List Char) : Bool :=
  (l.take 14 == patHead) &&
  (match l.drop 14 with
   | q1 :: a :: b :: q2 :: s :: _ =>
     (q1 = dquote || q1 = squote) && a.isUpper && b.isUpper &&
     (q2 = dquote || q2 = squote) && s = ';'
   | _ => false)

/-- Render a parsed template against the matched text (`group0` is the whole
19-character match). -/
def renderItems (matched : List Char) (items : List TemplItem) : List Char :=
  items.foldr
    (fun it acc =>
      match it with
      | .lit c => c :: acc
      | .group0 => matched ++ acc)
    []

/-- The left-to-right, leftmost, non-overlapping substitution scan of
`Pattern.sub`, fuelled so the recursion is structural (each step consumes at
least one character, so fuel equal to the input length is always enough). -/
def subScanF : Nat → List TemplItem → List Char → List Char
  | _, _, [] => []
  | 0, _, l => l
  | fuel + 1, items, c :: rest =>
    if matchCountry (c :: rest) then
      renderItems ((c :: rest).take 19) items ++ subScanF fuel items (rest.drop 18)
    else
      c :: subScanF fuel items rest

/-- Substitute every match of the country pattern in `l` by the rendering of
`items`. -/
def subScan (items : List TemplItem) (l : List Char) : List Char :=
  subScanF l.length items l

/-- `re.sub(r'var country = ...', f'var country = "{country_code}";', body)`:
build the replacement template from the f-string, process its escapes (an
invalid escape is an `re.error` raised before any matching), then replace
every match in `body`. -/
def re_sub_country (country_code : String) (body : String) :
    Except TemplateError String :=
  let repl := patHead ++ [dquote] ++ country_code.data ++ [dquote, ';']
  match parse_template repl with
  | .error e => .error e
  | .ok items => .ok (String.mk (subScan items body.data))

/-- Substitution exactly as the spec words it: every occurrence of the pattern
is replaced by the *verbatim* text `var country = "<country_code>";` (double
quotes, the country code inserted untouched). -/
def verbatimCountrySub (country_code : String) (body : String) : String :=
  String.mk
    (subScan ((patHead ++ [dquote] ++ country_code.data ++ [dquote, ';']).map TemplItem.lit)
      body.data)

/-- `country_code` contains no backslash. -/
def noBackslash (s : String) : Bool := !(s.data.any (fun c => c = bslash))

/-- Does the country pattern match anywhere in `l`? -/
def containsPat : List Char → Bool
  | [] => false
  | c :: rest => matchCountry (c :: rest) || containsPat rest

/-- Decidable equality on `Except`, for evaluating concrete substitutions. -/
instance {ε α : Type} [DecidableEq ε] [DecidableEq α] : DecidableEq (Except ε α) := fun a b =>
  match a, b with
  | .error e, .error f =>
    if h : e = f then isTrue (congrArg Except.error h)
    else isFalse (fun hh => h (Except.error.inj hh))
  | .ok x, .ok y =>
    if h : x = y then isTrue (congrArg Except.ok h)
    else isFalse (fun hh => h (Except.ok.inj hh))
  | .error _, .ok _ => isFalse (fun hh => Except.noConfusion hh)
  | .ok _, .error _ => isFalse (fun hh => Except.noConfusion hh)

-- sanity checks against observed CPython `re.sub` behaviour
example :
    re_sub_country "FR" "<script>var country = \"US\";</script>" =
      .ok "<script>var country = \"FR\";</script>" := by decide
example :
    re_sub_country "\\n" "var country = \"US\";" = .ok "var country = \"\n\";" := by decide
example : re_sub_country "\\Q" "var country = \"US\";" = .error (.badEscape 'Q') := by decide
example : re_sub_country "\\Q" "no match here" = .error (.badEscape 'Q') := by decide
example : re_sub_country "\\1" "no match here" = .error .invalidGroupRef := by decide
example :
    re_sub_country "\\g<0>" "var country = \"US\";" =
      .ok "var country = \"var country = \"US\";\";" := by decide
example :
    re_sub_country "\\101" "var country = \"US\";" = .ok "var country = \"A\";" := by decide
example : re_sub_country "\\777" "var country = \"US\";" = .error .octalOutOfRange := by decide
example :
    re_sub_country "\\&" "var country = \"US\";" = .ok "var country = \"\\&\";" := by decide
example :
    re_sub_country "XX" (String.mk ("var country = ".data ++ [squote] ++ "US".data ++ [squote, ';'])) =
      .ok "var country = \"XX\";" := by decide
example :
    re_sub_country "XX" (String.mk ("var country = ".data ++ [dquote] ++ "US".data ++ [squote, ';'])) =
      .ok "var country = \"XX\";" := by decide
example : re_sub_country "XX" "var country = \"us\";" = .ok "var country = \"us\";" := by decide

-- sanity checks of the IPv6 parser against observed CPython `ipaddress` values
example : ip_address "::ffff:192.168.0.1" = some (IPAddr.v6 281473913978881 none) := by decide
example : (IPAddr.v6 281473913978881 none).is_private = true := by decide
example :
    ip_address "fe80::1%eth0" =
      some (IPAddr.v6 338288524927261089654018896841347694593 (some "eth0")) := by decide
example :
    ip_address "1:2:3:4:5:6:1.2.3.4" =
      some (IPAddr.v6 5192455318486707404433266449711876 none) := by decide
example : ip_address "1::" = some (IPAddr.v6 5192296858534827628530496329220096 none) := by decide
example : ip_address ":::" = none := by decide
example : ip_address ":1::2" = none := by decide
example : ip_address "1:2:3:4:5:6:7" = none := by decide
example : ip_address "12345::" = none := by decide
example : ip_address "fe80::1%" = none := by decide

/-! ## The route-interception handler `handle_route` -/

/-- The response `route.fetch()` obtains from the network: status, headers and
body text. -/
structure FetchedResponse where
  status : Nat
  headers : List (String × String)
  body : String
  deriving DecidableEq

/-- One intercepted request: its `resource_type` and the response the network
would serve for it (what `route.fetch()` returns when called). -/
structure RouteInfo where
  resource_type : String
  fetched : FetchedResponse
  deriving DecidableEq

/-- What the handler does with a route: fulfill it with an explicit status,
headers and body; let it continue to the network untouched; or raise (the
`re.error` escaping from `re.sub` inside the handler). -/
inductive RouteOutcome where
  | fulfilled (status : Nat) (headers : List (String × String)) (body : String)
  | continued
  | raised (e : TemplateError)
  deriving DecidableEq

/-- `handle_route` (`src/screenshot.py` lines 26–45, identical copy in
`src/app.py` lines 94–116): for a `"document"` resource, fetch the original
response and fulfill with its status/headers but the rewritten body; for every
other resource type, `route.continue_()`. The closure's captured
`country_code` is an explicit parameter. -/
def handle_route (country_code : String) (route : RouteInfo) : RouteOutcome :=
  if route.resource_type = "document" then
    match re_sub_country country_code route.fetched.body with
    | .ok modified_body =>
      .fulfilled route.fetched.status route.fetched.headers modified_body
    | .error e => .raised e
  else .continued

/-- The response the page's renderer receives for this request: the fulfilled
data, the untouched network response on `continue_`, or nothing if the
handler raised. -/
def delivered (orig : FetchedResponse) : RouteOutcome → Option FetchedResponse
  | .fulfilled s h b => some ⟨s, h, b⟩
  | .continued => some orig
  | .raised _ => none

/-! ## The capture pipeline (`capture_isitchristmas_screenshot`)

`src/screenshot.py` lines 9–61 (identical copy in `src/app.py` lines 80–132):
inside `async with async_playwright() as p`, launch chromium, open a page,
install the interception route bound to `country_code`, `goto` the target with
`wait_until="networkidle"`, `wait_for_timeout(2000)`, take a full-page PNG
screenshot, `await browser.close()`, return the bytes. Every awaited step may
raise; an exception propagates out of the `async with` block, whose exit
handler calls `playwright.stop()`, and stopping the playwright instance closes
every browser launched through it (documented Playwright behaviour). The
model threads the outcome of each fallible step through `CaptureEnv` and
records the browser lifecycle in `PlaywrightState`. -/

/-- The exception a capture step can raise (propagated, never caught). -/
inductive CaptureError where
  | launchFailed
  | newPageFailed
  | gotoFailed
  | waitFailed
  | screenshotFailed
  deriving DecidableEq

/-- Environment of one invocation: whether each awaited step succeeds, and
the PNG bytes the screenshot produces when it does. -/
structure CaptureEnv where
  launchOk : Bool
  newPageOk : Bool
  gotoOk : Bool
  waitOk : Bool
  screenshotOk : Bool
  png : List Nat
  deriving DecidableEq

/-- Browser lifecycle state at the end of an invocation: was a browser
launched, is it still open, and the `country_code` the installed route
closure was bound to (if the route installation step was reached). -/
structure PlaywrightState where
  browserLaunched : Bool
  browserOpen : Bool
  routeCountry : Option String
  deriving DecidableEq

/-- The body of the `async with` block: launch → new_page → route →
goto → wait_for_timeout → screenshot → browser.close() → return, stopping at
the first failing step (leaving the browser open — the source has no
`try/finally` around it; only the success path reaches `browser.close()`). -/
def capture_attempt (env : CaptureEnv) (country_code : String) :
    Except CaptureError (List Nat) × PlaywrightState :=
  if !env.launchOk then (.error .launchFailed, ⟨false, false, none⟩)
  else if !env.newPageOk then (.error .newPageFailed, ⟨true, true, none⟩)
  else if !env.gotoOk then (.error .gotoFailed, ⟨true, true, some country_code⟩)
  else if !env.waitOk then (.error .waitFailed, ⟨true, true, some country_code⟩)
  else if !env.screenshotOk then (.error .screenshotFailed, ⟨true, true, some country_code⟩)
  else (.ok env.png, ⟨true, false, some country_code⟩)

/-- `capture_isitchristmas_screenshot(country_code)`: the body runs inside
`async with async_playwright() as p`, whose exit (normal or exceptional)
stops the playwright instance and with it closes any browser still open. -/
def capture_isitchristmas_screenshot (env : CaptureEnv) (country_code : String) :
    Except CaptureError (List Nat) × PlaywrightState :=
  let r := capture_attempt env country_code
  (r.1, { r.2 with browserOpen := false })

/-! ## The `GET /screenshot` endpoint (`app.get_screenshot`) -/

/-- The request data `get_screenshot` consults: the `X-Forwarded-For` header
(`none` when absent — `headers.get` then yields the default `""`) and
`request.client.host` (`none` when `request.client` is `None`). -/
structure HTTPRequest where
  xForwardedFor : Option String
  clientHost : Option String

/-- The first comma-separated entry of the `X-Forwarded-For` header, trimmed
(`request.headers.get("X-Forwarded-For", "").split(",")[0].strip()`). -/
def xff_first (req : HTTPRequest) : String :=
  String.mk (trimChars ((splitOnChar ',' (req.xForwardedFor.getD "").data).headD []))

/-- Client-IP derivation (`src/app.py` lines 148–151): the trimmed first
`X-Forwarded-For` entry, and if that is empty,
`request.client.host if request.client else "127.0.0.1"`. -/
def derive_client_ip (req : HTTPRequest) : String :=
  let client_ip := xff_first req
  if client_ip = "" then
    match req.clientHost with
    | some h => h
    | none => "127.0.0.1"
  else client_ip

/-- The `fastapi.Response` built by the endpoint: `country` is the value that
was passed to `capture_isitchristmas_screenshot` and into the filename. -/
structure ScreenshotResponse where
  country : String
  content : List Nat
  media_type : String
  content_disposition : String
  deriving DecidableEq

/-- `get_screenshot` (`src/app.py` lines 135–167): if the `country` query
parameter is absent, derive the client IP and resolve it; otherwise uppercase
the supplied value. Call the capture pipeline with the resulting code (its
exception, if any, propagates) and wrap the bytes in a `image/png` response
with an `inline; filename=isitchristmas-<code>.png` disposition. -/
def get_screenshot (geoip_reader : Option Reader) (env : CaptureEnv)
    (req : HTTPRequest) (country? : Option String) :
    Except CaptureError ScreenshotResponse :=
  let country :=
    match country? with
    | none => get_country_from_ip geoip_reader (derive_client_ip req)
    | some c => str_upper c
  match (capture_isitchristmas_screenshot env country).1 with
  | .error e => .error e
  | .ok png =>
    .ok ⟨country, png, "image/png",
         "inline; filename=isitchristmas-" ++ country ++ ".png"⟩

/-! ## Claims about the capture pipeline and the endpoint -/

/-- A backslash-free replacement template parses to its own characters as
literals (given enough fuel, which `parse_template` always supplies). -/
theorem parse_templateF_no_bslash :
    ∀ (fuel : Nat) (l : List Char), l.length ≤ fuel → (∀ c ∈ l, c ≠ bslash) →
      parse_templateF fuel l = .ok (l.map TemplItem.lit) := by
  intro fuel
  induction fuel with
  | zero =>
    intro l hl _
    cases l with
    | nil => rfl
    | cons c rest => simp at hl
  | succ fuel ih =>
    intro l hl hnb
    cases l with
    | nil => rfl
    | cons c rest =>
      have hc : ¬(c = bslash) := hnb c (List.mem_cons_self c rest)
      have hrest : ∀ x ∈ rest, x ≠ bslash := fun x hx => hnb x (List.mem_cons_of_mem c hx)
      have hlen : rest.length ≤ fuel := by
        have := hl
        simp only [List.length_cons] at this
        omega
      simp only [parse_templateF]
      rw [if_neg hc, ih rest hlen hrest]
      rfl

/-- If the country pattern matches nowhere in `l`, the substitution scan
returns `l` unchanged (for every fuel). -/
theorem subScanF_no_match :
    ∀ (fuel : Nat) (items : List TemplItem) (l : List Char),
      containsPat l = false → subScanF fuel items l = l := by
  intro fuel
  induction fuel with
  | zero =>
    intro items l _
    cases l <;> rfl
  | succ fuel ih =>
    intro items l h
    cases l with
    | nil => rfl
    | cons c rest =>
      simp only [containsPat, Bool.or_eq_false_iff] at h
      simp only [subScanF]
      rw [if_neg (by simp [h.1]), ih items rest h.2]

/-- For a backslash-free `country_code`, the replacement template is used
literally, so `re.sub` produces exactly the verbatim substitution. -/
theorem re_sub_country_no_bslash (country_code body : String)
    (hcc : noBackslash country_code = true) :
    re_sub_country country_code body = .ok (verbatimCountrySub country_code body) := by
  have hccm : ∀ c ∈ country_code.data, c ≠ bslash := by
    intro c hc
    simp only [noBackslash, Bool.not_eq_true', List.any_eq_false, decide_eq_true_eq] at hcc
    exact hcc c hc
  have hpat : ∀ c ∈ patHead, c ≠ bslash := by decide
  have hnb : ∀ c ∈ patHead ++ [dquote] ++ country_code.data ++ [dquote, ';'], c ≠ bslash := by
    intro c hc
    simp only [List.mem_append, List.mem_cons, List.not_mem_nil, or_false] at hc
    rcases hc with ((hc | hc) | hc) | (hc | hc)
    · exact hpat c hc
    · subst hc; decide
    · exact hccm c hc
    · subst hc; decide
    · subst hc; decide
  have h : parse_template (patHead ++ [dquote] ++ country_code.data ++ [dquote, ';']) =
      .ok ((patHead ++ [dquote] ++ country_code.data ++ [dquote, ';']).map TemplItem.lit) :=
    parse_templateF_no_bslash _ _ le_rfl hnb
  unfold re_sub_country
  dsimp only
  rw [h]
  rfl

/-- Core of the document rewrite: for a backslash-free `country_code`, the
handler fulfills the document request with the original status and headers
and the body in which every pattern match is replaced by the verbatim text
`var country = "<country_code>";`. -/
theorem handle_route_document_verbatim (country_code : String) (route : RouteInfo)
    (hdoc : route.resource_type = "document") (hcc : noBackslash country_code = true) :
    handle_route country_code route =
      RouteOutcome.fulfilled route.fetched.status route.fetched.headers
        (verbatimCountrySub country_code route.fetched.body) := by
  unfold handle_route
  rw [if_pos hdoc, re_sub_country_no_bslash country_code route.fetched.body hcc]

/-- Claim C1 (amended): for the document request and a backslash-free
`country_code`, the handler fetches the original response and fulfills the
request with its status and headers and the body with every occurrence of the
pattern (either quote style, exactly two uppercase letters) replaced by the
verbatim `var country = "<country_code>";` (double quotes); and when the
pattern is absent from the body, the fulfilled body is the original body
unchanged. -/
theorem C1_document_rewrite (country_code : String) (route : RouteInfo)
    (hdoc : route.resource_type = "document") (hcc : noBackslash country_code = true) :
    handle_route country_code route =
      RouteOutcome.fulfilled route.fetched.status route.fetched.headers
        (verbatimCountrySub country_code route.fetched.body) ∧
    (containsPat route.fetched.body.data = false →
      handle_route country_code route =
        RouteOutcome.fulfilled route.fetched.status route.fetched.headers
          route.fetched.body) := by
  refine ⟨handle_route_document_verbatim _ _ hdoc hcc, fun hnp => ?_⟩
  rw [handle_route_document_verbatim _ _ hdoc hcc]
  unfold verbatimCountrySub subScan
  rw [subScanF_no_match _ _ _ hnp]

/-- Witness for C1: replacing `US` by `FR` in a concrete document body, and
passing a pattern-free body through unchanged. -/
theorem C1_witness :
    handle_route "FR" ⟨"document", ⟨200, [], "<script>var country = \"US\";</script>"⟩⟩ =
      RouteOutcome.fulfilled 200 [] "<script>var country = \"FR\";</script>" ∧
    handle_route "FR" ⟨"document", ⟨200, [], "<p>plain</p>"⟩⟩ =
      RouteOutcome.fulfilled 200 [] "<p>plain</p>" := by
  constructor
  · have h :=
      (C1_document_rewrite "FR"
        ⟨"document", ⟨200, [], "<script>var country = \"US\";</script>"⟩⟩
        rfl (by decide)).1
    rw [h]
    decide
  · exact
      (C1_document_rewrite "FR" ⟨"document", ⟨200, [], "<p>plain</p>"⟩⟩
        rfl (by decide)).2 (by decide)

/-- Counterexample to C1 as stated: with `country_code` the two-character
string backslash-`n`, the fulfilled body is not the original with the pattern
replaced by the verbatim `var country = "<country_code>";` — the template
engine turns the backslash escape into a newline. -/
theorem C1_counterexample :
    handle_route "\\n" ⟨"document", ⟨200, [], "var country = \"US\";"⟩⟩ =
      RouteOutcome.fulfilled 200 [] "var country = \"\n\";" ∧
    handle_route "\\n" ⟨"document", ⟨200, [], "var country = \"US\";"⟩⟩ ≠
      RouteOutcome.fulfilled 200 []
        (verbatimCountrySub "\\n" "var country = \"US\";") := by
  constructor
  · decide
  · decide

/-- Counterexample to C10 as stated: the three-character country code
backslash-`1`-`0`-`1` is not substituted verbatim — the template engine reads
it as the octal escape for `A`, so the injected value is `A`. -/
theorem C10_counterexample :
    handle_route "\\101" ⟨"document", ⟨200, [], "var country = \"SE\";"⟩⟩ =
      RouteOutcome.fulfilled 200 [] "var country = \"A\";" ∧
    RouteOutcome.fulfilled 200 [] "var country = \"A\";" ≠
      RouteOutcome.fulfilled 200 []
        (verbatimCountrySub "\\101" "var country = \"SE\";") := by
  constructor
  · decide
  · decide

/-- Claim C10 (amended): the handler imposes no validation on its
`country_code` argument — every *backslash-free* string, of any length and
character content, is substituted verbatim inside `var country = "...";` in
the fulfilled body (only the matched original text is constrained to exactly
two uppercase letters); a string containing a backslash is instead processed
as replacement-template escapes (and may be transformed or raise `re.error`). -/
theorem C10_no_country_code_validation (country_code rt : String)
    (resp : FetchedResponse) (hdoc : rt = "document")
    (hcc : noBackslash country_code = true) :
    handle_route country_code ⟨rt, resp⟩ =
      RouteOutcome.fulfilled resp.status resp.headers
        (verbatimCountrySub country_code resp.body) :=
  handle_route_document_verbatim country_code ⟨rt, resp⟩ hdoc hcc

/-- Witness for C10 (amended) at a country code that is nothing like a
two-letter code. -/
theorem C10_witness :
    handle_route "HELLO world! 123" ⟨"document", ⟨200, [], "var country = \"US\";"⟩⟩ =
      RouteOutcome.fulfilled 200 [] "var country = \"HELLO world! 123\";" := by
  have h :=
    C10_no_country_code_validation "HELLO world! 123" "document"
      ⟨200, [], "var country = \"US\";"⟩ rfl (by decide)
  rw [h]
  decide

/-- Claim C8: every intercepted request whose resource type is not
`"document"` is continued unmodified, and the response the page receives is
exactly the network's response, untouched by the rewrite. -/
theorem C8_non_document_pass_through (country_code : String) (route : RouteInfo)
    (h : route.resource_type ≠ "document") :
    handle_route country_code route = RouteOutcome.continued ∧
    delivered route.fetched (handle_route country_code route) = some route.fetched := by
  have h1 : handle_route country_code route = RouteOutcome.continued := by
    unfold handle_route
    rw [if_neg h]
  exact ⟨h1, by rw [h1]; rfl⟩

/-- Witness for C8 at a `"script"` resource. -/
theorem C8_witness :
    handle_route "FR" ⟨"script", ⟨200, [], "console.log(1)"⟩⟩ = RouteOutcome.continued ∧
    delivered ⟨200, [], "console.log(1)"⟩
        (handle_route "FR" ⟨"script", ⟨200, [], "console.log(1)"⟩⟩) =
      some ⟨200, [], "console.log(1)"⟩ :=
  C8_non_document_pass_through "FR" ⟨"script", ⟨200, [], "console.log(1)"⟩⟩ (by decide)

/-- Claim C2: for every invocation of the capture pipeline — whatever
combination of steps succeeds or raises — the final state has no open
browser: a browser is launched exactly when the launch step succeeds, and it
is closed before the invocation completes on every path (by `browser.close()`
on the success path, and by the `async with async_playwright()` exit stopping
the playwright instance on every error path). -/
theorem C2_browser_closed_on_all_paths (env : CaptureEnv) (country_code : String) :
    (capture_isitchristmas_screenshot env country_code).2.browserOpen = false ∧
    (capture_isitchristmas_screenshot env country_code).2.browserLaunched = env.launchOk := by
  rcases env with ⟨l, np, g, w, s, png⟩
  cases l <;> cases np <;> cases g <;> cases w <;> cases s <;> exact ⟨rfl, rfl⟩

/-- Claim C9: with a capture environment whose steps all succeed, a supplied
`country` parameter is uppercased, passed as the capture pipeline's country
code (it is the code the installed route closure is bound to), and echoed in
the `image/png` response's `inline; filename=isitchristmas-<code>.png`
disposition; with the parameter omitted, the client IP — the trimmed first
comma-separated `X-Forwarded-For` entry, falling back to the transport peer
address, falling back to `"127.0.0.1"` — is fed to the resolver and the
resolved code is used the same way. -/
theorem C9_screenshot_endpoint (geoip_reader : Option Reader) (env : CaptureEnv)
    (req : HTTPRequest)
    (hok : env.launchOk = true ∧ env.newPageOk = true ∧ env.gotoOk = true ∧
           env.waitOk = true ∧ env.screenshotOk = true) :
    (∀ c : String,
      get_screenshot geoip_reader env req (some c) =
        .ok ⟨str_upper c, env.png, "image/png",
             "inline; filename=isitchristmas-" ++ str_upper c ++ ".png"⟩ ∧
      (capture_isitchristmas_screenshot env (str_upper c)).2.routeCountry =
        some (str_upper c)) ∧
    (get_screenshot geoip_reader env req none =
      .ok ⟨get_country_from_ip geoip_reader (derive_client_ip req), env.png, "image/png",
           "inline; filename=isitchristmas-" ++
             get_country_from_ip geoip_reader (derive_client_ip req) ++ ".png"⟩) ∧
    ((xff_first req ≠ "" → derive_client_ip req = xff_first req) ∧
     (∀ h, xff_first req = "" → req.clientHost = some h → derive_client_ip req = h) ∧
     (xff_first req = "" → req.clientHost = none → derive_client_ip req = "127.0.0.1")) := by
  obtain ⟨h1, h2, h3, h4, h5⟩ := hok
  rcases env with ⟨l, np, g, w, s, png⟩
  subst h1; subst h2; subst h3; subst h4; subst h5
  refine ⟨fun c => ⟨rfl, rfl⟩, rfl, ?_, ?_, ?_⟩
  · intro hne
    unfold derive_client_ip
    rw [if_neg hne]
  · intro h he hch
    unfold derive_client_ip
    rw [if_pos he, hch]
  · intro he hch
    unfold derive_client_ip
    rw [if_pos he, hch]

/-- A capture environment in which every step succeeds and the screenshot is
the PNG magic signature. -/
def env0 : CaptureEnv := ⟨true, true, true, true, true, [137, 80, 78, 71]⟩

/-- A request carrying an `X-Forwarded-For` chain and a private peer
address. -/
def req0 : HTTPRequest := ⟨some "81.2.69.142, 203.0.113.5", some "172.16.0.9"⟩

/-- Witness for C9: `?country=fr` yields an `FR` response; omitting the
parameter resolves the first forwarded address through the loaded reader. -/
theorem C9_witness :
    get_screenshot (some usReader) env0 req0 (some "fr") =
      .ok ⟨"FR", [137, 80, 78, 71], "image/png",
           "inline; filename=isitchristmas-FR.png"⟩ ∧
    get_screenshot (some usReader) env0 req0 none =
      .ok ⟨"US", [137, 80, 78, 71], "image/png",
           "inline; filename=isitchristmas-US.png"⟩ ∧
    derive_client_ip req0 = "81.2.69.142" := by
  have h := C9_screenshot_endpoint (some usReader) env0 req0 ⟨rfl, rfl, rfl, rfl, rfl⟩
  refine ⟨?_, ?_, ?_⟩
  · have h1 := (h.1 "fr").1
    rw [h1]
    decide
  · have h2 := h.2.1
    rw [h2]
    decide
  · rw [h.2.2.1 (by decide)]
    decide
